import Mathlib

/-!
Verification development for the constructor-manager update orchestration
engine (goanpeca/packaging). The definitions below are a shallow embedding
of the Python source files:

  constructor-manager-cli/src/constructor_manager_cli/actions.py
  constructor-updater/src/constructor_updater/cli.py

External collaborators that are not part of the repository snapshot
(the conda installer backend, sentinel file IO, the filesystem lock, and
the version utilities module) are modelled either as explicit behaviour
parameters or, where the spec pins their semantics, as definitions marked
"Modelled from the spec".
-/

set_option autoImplicit false
set_option linter.unusedVariables false

namespace ConstructorManager

/-- Python truthiness of an integer, as used by the source in
conditions such as a test on a return code. -/
def intTruthy (n : Int) : Bool := n != 0

/-! ## Version model

The module constructor_manager_cli/utils/versions.py is not part of the
source snapshot; only its test file is. The definitions in this section
are therefore modelled from the spec (sections 3 and 4.1 and the testable
properties of section 8) and validated against the in-repository test file
utils/tests/test_versions.py. -/

/-- Convert a run of decimal digit characters to a natural number. -/
def charsToNat (cs : List Char) : Nat :=
  cs.foldl (fun n c => n * 10 + (c.toNat - 48)) 0

/-- Leading run of digit characters. -/
def takeDigits : List Char → List Char
  | [] => []
  | c :: cs => if c.isDigit then c :: takeDigits cs else []

/-- Remainder after the leading run of digit characters. -/
def dropDigits : List Char → List Char
  | [] => []
  | c :: cs => if c.isDigit then dropDigits cs else c :: cs

/-- Leading run of alphabetic characters. -/
def takeAlpha : List Char → List Char
  | [] => []
  | c :: cs => if c.isAlpha then c :: takeAlpha cs else []

/-- Remainder after the leading run of alphabetic characters. -/
def dropAlpha : List Char → List Char
  | [] => []
  | c :: cs => if c.isAlpha then dropAlpha cs else c :: cs

/-- Split a character list on the dot separator. -/
def splitDotsAux : List Char → List Char → List (List Char)
  | [], acc => [acc.reverse]
  | c :: cs, acc => if c = '.' then acc.reverse :: splitDotsAux cs [] else splitDotsAux cs (c :: acc)

/-- Modelled from the spec: rank of a pre-release qualifier word; a dev
qualifier sorts before alpha, which sorts before beta, which sorts before
a release candidate, and any final version (no qualifier) sorts after all
of them (spec section 4.1 and the sort example of section 8). -/
def qualifierRank (w : List Char) : Nat :=
  if w = ['d', 'e', 'v'] then 0
  else if w = ['a'] ∨ w = ['a', 'l', 'p', 'h', 'a'] ∨ w = ['a', 'l', 'f', 'a'] then 1
  else if w = ['b'] ∨ w = ['b', 'e', 't', 'a'] then 2
  else if w = ['c'] ∨ w = ['r', 'c'] ∨ w = ['p', 'r', 'e'] then 3
  else 1

/-- Modelled from the spec: the parsed form of a version string, with the
numeric release segments and an optional pre-release qualifier
(rank, number); a missing qualifier means a final release. -/
structure VersionCore where
  release : List Nat
  pre : Option (Nat × Nat)
deriving DecidableEq, Repr

/-- Process the dot-separated segments of a version string into release
numbers and an optional qualifier. -/
def parseSegments : List (List Char) → List Nat × Option (Nat × Nat)
  | [] => ([], none)
  | seg :: rest =>
    if seg ≠ [] ∧ seg.all Char.isDigit then
      let (rel, pre) := parseSegments rest
      (charsToNat seg :: rel, pre)
    else
      let digits := takeDigits seg
      let tail := dropDigits seg
      let word := takeAlpha tail
      let wnum := takeDigits (dropAlpha tail)
      let pre := (qualifierRank word, charsToNat wnum)
      if digits = [] then ([], some pre) else ([charsToNat digits], some pre)

/-- Modelled from the spec: parse_version from
constructor_manager_cli/utils/versions.py (module absent from the source
snapshot). An empty string parses to the bottom element so that a
comparison against an empty latest version yields no update
(spec section 4.1). -/
def parse_version (s : String) : Option VersionCore :=
  if s = "" then none
  else
    let (rel, pre) := parseSegments (splitDotsAux s.data [])
    some ⟨rel, pre⟩

/-- Strict lexicographic order on numeric release segments. -/
def listNatLt : List Nat → List Nat → Bool
  | [], [] => false
  | [], _ :: _ => true
  | _ :: _, [] => false
  | a :: as, b :: bs => if a < b then true else if b < a then false else listNatLt as bs

/-- Strict order on qualifiers: any qualifier sorts before a final
release; qualifiers compare by rank then number. -/
def preLt : Option (Nat × Nat) → Option (Nat × Nat) → Bool
  | none, _ => false
  | some _, none => true
  | some (r1, n1), some (r2, n2) =>
    if r1 < r2 then true else if r2 < r1 then false else n1 < n2

/-- Strict order on parsed versions. -/
def coreLt (a b : VersionCore) : Bool :=
  if a.release = b.release then preLt a.pre b.pre else listNatLt a.release b.release

/-- Strict order on optional parsed versions; the empty-string parse is
the bottom element. -/
def versionLt : Option VersionCore → Option VersionCore → Bool
  | none, none => false
  | none, some _ => true
  | some _, none => false
  | some a, some b => coreLt a b

/-- Modelled from the spec: is_stable_version from
constructor_manager_cli/utils/versions.py (module absent from the source
snapshot): a version is stable when it carries no qualifier, which for the
string form of section 8 means every character is a digit or a dot. -/
def is_stable_version (s : String) : Bool :=
  s.data.all (fun c => c.isDigit || c == '.')

/-- Stable insertion of a version string into an ascending list. -/
def insertVersion (v : String) : List String → List String
  | [] => [v]
  | w :: ws =>
    if versionLt (parse_version v) (parse_version w) then v :: w :: ws
    else w :: insertVersion v ws

/-- Modelled from the spec: sort_versions from
constructor_manager_cli/utils/versions.py (module absent from the source
snapshot): ascending sort under the package-version order. -/
def sort_versions (l : List String) : List String :=
  l.foldr insertVersion []

/-- Python list indexing, including the negative-index wraparound used by
the source expression taking the element at position index minus one. -/
def pyIndex (l : List String) (i : Int) : String :=
  if i < 0 then l.getD ((l.length : Int) + i).toNat ""
  else l.getD i.toNat ""

/-! ## check_updates (actions.py lines 99 to 148) -/

/-- The dictionary returned by check_updates. -/
structure CheckUpdatesResult where
  available_versions : List String
  current_version : String
  latest_version : String
  previous_version : String
  found_versions : List String
  update : Bool
  installed : Bool
deriving DecidableEq, Repr

/-- Shallow embedding of check_updates from actions.py. The remote
catalog fetch (conda_package_versions) and the installed-version listing
(get_installed_versions) are external collaborators, passed here as the
arguments remote_versions and installed_versions_builds. The parse of the
package spec string (parse_conda_version_spec, module absent from the
source snapshot) is taken as given components package_name and
current_version. -/
def check_updates (package_name current_version : String) (dev : Bool)
    (remote_versions : List String)
    (installed_versions_builds : List (String × String)) : CheckUpdatesResult :=
  let versions := sort_versions remote_versions
  let versions := if dev then versions else versions.filter is_stable_version
  let latest_version := if versions.isEmpty then "" else pyIndex versions (-1)
  let installed_versions := installed_versions_builds.map Prod.fst
  let update := versionLt (parse_version current_version) (parse_version latest_version)
  let filtered_version := versions
  let previous_version :=
    if filtered_version.contains current_version then
      pyIndex filtered_version ((filtered_version.indexOf current_version : Int) - 1)
    else ""
  { available_versions := versions
    current_version := current_version
    latest_version := latest_version
    previous_version := previous_version
    found_versions := installed_versions
    update := update
    installed := installed_versions.contains latest_version }

/-! ## Installer adapter model

CondaInstaller (constructor_manager_cli/installer.py) is not part of the
source snapshot. Modelled from the spec (section 4.2): each create,
install or remove call yields a job handle and a synchronously available
exit code; behaviour is captured by oracles giving, for each call, its
exit code, and for remove its job id and whether the backend deleted the
directory. -/

/-- One recorded call against the installer adapter. -/
inductive InstallerCall
  | create (specs : List String) (envDir : String)
  | install (specs : List String) (envDir : String)
deriving DecidableEq, Repr

/-- Modelled from the spec: behaviour of the external installer backend,
as observed through exit codes and job handles (section 4.2 and the
InstallJob data model of section 3). -/
structure InstallerBehavior where
  createExit : List String → String → Int
  installExit : List String → String → Int
  removeJobId : String → Nat
  removeExit : String → Int
  removeDeletesDir : String → Bool
  createMakesDir : Bool

/-- Modelled from the spec: get_prefix_by_name
(constructor_manager_cli/utils/conda.py, absent from the source
snapshot) maps an environment name to the deterministic path
base slash name (section 4.3). -/
def pathForEnv (name : String) : String := "envs/" ++ name

/-- The pinned conda spec string built by the source: the f-string
package_name equals version equals star build_string star. -/
def condaSpecString (package_name version build_string : String) : String :=
  package_name ++ "=" ++ version ++ "=*" ++ build_string ++ "*"

/-! ## update and its two install strategies (actions.py lines 31 to 96
and 151 to 211) -/

/-- Exit code and recorded calls of one install strategy. -/
structure InstallStepResult where
  exitCode : Int
  calls : List InstallerCall

/-- Shallow embedding of the function named underscore
create_with_plugins in actions.py (lines 31 to 62): one atomic batched
create of the pinned spec together with all plugins; its result is the
exit code of that single create job. -/
def create_with_plugins (B : InstallerBehavior)
    (package_name version build_string : String)
    (plugins : List String) : InstallStepResult :=
  let spec := condaSpecString package_name version build_string
  let envDir := pathForEnv (package_name ++ "-" ++ version)
  let packages := [spec] ++ plugins
  { exitCode := B.createExit packages envDir
    calls := [InstallerCall.create packages envDir] }

/-- Shallow embedding of the function named underscore
create_with_plugins_one_by_one in actions.py (lines 65 to 96): one create
call with only the pinned spec, then one install call per plugin; the
loop consults no exit code, and the returned exit code is the one of the
create job alone. -/
def create_with_plugins_one_by_one (B : InstallerBehavior)
    (package_name version build_string : String)
    (plugins : List String) : InstallStepResult :=
  let spec := condaSpecString package_name version build_string
  let envDir := pathForEnv (package_name ++ "-" ++ version)
  { exitCode := B.createExit [spec] envDir
    calls := InstallerCall.create [spec] envDir ::
      plugins.map (fun p => InstallerCall.install [p] envDir) }

/-- Observable outcome of one run of update. The Python function falls
off its end, so its return value is always None, recorded as pyReturn. -/
structure UpdateRun where
  latestVersion : String
  sentinelWritten : Option (String × String)
  finalReturnCode : Int
  calls : List InstallerCall
  pyReturn : Option Int

/-- Shallow embedding of update from actions.py (lines 151 to 211). The
plugin catalog fetch (plugin_versions) and the installed package listing
(installer.list) are external collaborators, passed as available_plugins
and listed_packages; save_state_file is a pure snapshot write with no
bearing on the claims. Sentinel writing (create_sentinel_file,
utils/io.py absent from the snapshot) is recorded in sentinelWritten. -/
def update (B : InstallerBehavior)
    (package_name current_version build_string : String) (dev : Bool)
    (remote_versions : List String)
    (installed_versions_builds : List (String × String))
    (available_plugins : List String)
    (listed_packages : List String) : UpdateRun :=
  let data := check_updates package_name current_version dev remote_versions
    installed_versions_builds
  let latest_version := data.latest_version
  let filtered_packages := listed_packages.filter (fun n => available_plugins.contains n)
  let r1 := create_with_plugins B package_name latest_version build_string filtered_packages
  if intTruthy r1.exitCode then
    let r2 := create_with_plugins_one_by_one B package_name latest_version build_string
      filtered_packages
    { latestVersion := latest_version
      sentinelWritten := if intTruthy r2.exitCode then none
        else some (package_name, latest_version)
      finalReturnCode := r2.exitCode
      calls := r1.calls ++ r2.calls
      pyReturn := none }
  else
    { latestVersion := latest_version
      sentinelWritten := if intTruthy r1.exitCode then none
        else some (package_name, latest_version)
      finalReturnCode := r1.exitCode
      calls := r1.calls ++ []
      pyReturn := none }

/-! ## restore (actions.py lines 287 to 321) -/

/-- Observable outcome of one run of restore. The directory set models
which paths are directories on disk; brokenDir is the broken_prefix
variable of the source, none standing for its empty-string initial value
(the renamed path is never the empty string, so Python string truthiness
coincides with isSome). -/
structure RestoreRun where
  dirsAfter : List String
  brokenDir : Option String
  quarantined : Bool
  rmtreeBrokenRan : Bool
  exitCode : Int
deriving DecidableEq, Repr

/-- Shallow embedding of restore from actions.py (lines 287 to 321),
second half, over the already-computed truthiness of the remove job
handle and the directory state after the backend remove: the quarantine
rename, the recreate, and the unconditional deletion of the broken copy,
which consults the remove job handle and the directory state but never
the recreate exit code. -/
def restoreCore (jobTruthy : Bool) (dirs1 : List String) (envDir : String)
    (createExit : Int) (createMakesDir : Bool) : RestoreRun :=
  let doRename := jobTruthy && dirs1.contains envDir
  let brokenDir : Option String := if doRename then some (envDir ++ "-broken") else none
  let dirs2 := match brokenDir with
    | some b => b :: dirs1.erase envDir
    | none => dirs1
  let dirs3 := if createMakesDir then
      (if dirs2.contains envDir then dirs2 else envDir :: dirs2)
    else dirs2
  let doRmtree := match brokenDir with
    | some b => jobTruthy && dirs3.contains b
    | none => false
  let dirs4 := match brokenDir with
    | some b => if doRmtree then dirs3.erase b else dirs3
    | none => dirs3
  { dirsAfter := dirs4
    brokenDir := brokenDir
    quarantined := doRename
    rmtreeBrokenRan := doRmtree
    exitCode := createExit }

/-- Shallow embedding of restore from actions.py (lines 287 to 321),
first half: the conditional backend remove and the truthiness of its job
handle, feeding restoreCore. The parse of the package spec
(parse_conda_version_spec, absent from the snapshot) is taken as given
components package_name and current_version, with the raw spec string
package kept for the create call, which the source passes verbatim.
dirs0 is the set of directories on disk at entry. -/
def restore (B : InstallerBehavior) (package package_name current_version : String)
    (dirs0 : List String) : RestoreRun :=
  let env_name := package_name ++ "-" ++ current_version
  let envDir := pathForEnv env_name
  let jobRemove : Option Nat :=
    if dirs0.contains envDir then some (B.removeJobId envDir) else none
  let dirs1 := match jobRemove with
    | some _ => if B.removeDeletesDir envDir then dirs0.erase envDir else dirs0
    | none => dirs0
  let jobTruthy := match jobRemove with
    | some j => j != 0
    | none => false
  restoreCore jobTruthy dirs1 envDir (B.createExit [package] envDir) B.createMakesDir

/-! ## remove (actions.py lines 264 to 284) -/

/-- Observable outcome of one run of remove. -/
structure RemoveRun where
  backendExit : Int
  removeJobId : Nat
  rmtreeRan : Bool
deriving DecidableEq, Repr

/-- Shallow embedding of remove from actions.py (lines 264 to 284): the
backend removal runs first; the source then tests the job handle itself,
if job_id, not the exit code, before deleting the directory tree. -/
def remove (B : InstallerBehavior) (package_name version : String) : RemoveRun :=
  let envDir := pathForEnv (package_name ++ "-" ++ version)
  let job_id := B.removeJobId envDir
  { backendExit := B.removeExit envDir
    removeJobId := job_id
    rmtreeRan := job_id != 0 }

/-! ## check_updates_clean_and_launch (actions.py lines 241 to 261) -/

/-- Observable outcome of one run of check_updates_clean_and_launch:
which sentinel files were removed, and whether clean_all ran. -/
structure CleanLaunchRun where
  removedSentinels : List (String × String)
  ranCleanAll : Bool
deriving DecidableEq, Repr

/-- Shallow embedding of check_updates_clean_and_launch from actions.py
(lines 241 to 261). It calls check_updates on the bare package name, so
the parsed current version component is empty. Sentinel removal
(remove_sentinel_file, utils/io.py absent from the snapshot) is recorded
as the list of removed (package, version) keys; clean_all removes broken
environments, never sentinel files. -/
def check_updates_clean_and_launch (package_name : String) (dev : Bool)
    (remote_versions : List String)
    (installed_versions_builds : List (String × String)) : CleanLaunchRun :=
  let res := check_updates package_name "" dev remote_versions installed_versions_builds
  let found_versions := res.found_versions
  if res.installed then
    { removedSentinels :=
        (found_versions.filter (fun v => v != res.latest_version)).map
          (fun v => (package_name, v))
      ranCleanAll := true }
  else
    { removedSentinels := [], ranCleanAll := false }

/-! ## Command line shell (constructor-updater cli.py)

FilesystemLock (constructor_updater/utils/locking.py) is not part of the
source snapshot. Modelled from the spec (section 4.4): one lock call
either acquires a free lock, fails fast when another live process holds
it, or raises when the lock artifact is corrupted. -/

/-- Modelled from the spec: the three possible outcomes of the single
lock call issued by main. -/
inductive LockBehavior
  | acquired
  | heldByOther
  | corruptArtifact
deriving DecidableEq, Repr

/-- State of the on-disk lock artifact. -/
inductive LockState
  | free
  | held
  | corrupted
deriving DecidableEq, Repr

/-- Lock artifact state at entry, implied by the behaviour of the lock
call. -/
def lockStateBefore : LockBehavior → LockState
  | .acquired => .free
  | .heldByOther => .held
  | .corruptArtifact => .corrupted

/-- The argparse namespace produced by main. A field holds none when the
subparser for the given command never defined the argument, in which case
an attribute access raises. -/
structure Args where
  command : String
  package : String
  channel : Option String
  plugins : Option (List String)
  dev : Option Bool
  current_version : Option String
  stable : Option String
deriving DecidableEq, Repr

/-- Args built by the check-updates subparser (cli.py lines 143 to 144):
package, channel and dev only. -/
def parsedCheckUpdatesArgs (pkg ch : String) (dv : Bool) : Args :=
  { command := "check-updates", package := pkg, channel := some ch
    plugins := none, dev := some dv, current_version := none, stable := none }

/-- Args built by the update subparser (cli.py lines 146 to 147):
package, channel, plugins and dev; neither current_version nor stable is
ever defined for it. -/
def parsedUpdateArgs (pkg ch : String) (pl : List String) (dv : Bool) : Args :=
  { command := "update", package := pkg, channel := some ch
    plugins := some pl, dev := some dv, current_version := none, stable := none }

/-- Args built by the restore subparser (cli.py lines 156 to 157):
package and channel only. -/
def parsedRestoreArgs (pkg ch : String) : Args :=
  { command := "restore", package := pkg, channel := some ch
    plugins := none, dev := none, current_version := none, stable := none }

/-- Observable effects of one call of the function named underscore
execute in cli.py. -/
structure ExecEffects where
  output : List String
  checkUpdatesRan : Bool
  restoreRan : Bool
  installerCreateInstallCalls : Nat
  sentinelWrites : Nat
  unlockCalled : Bool
  raised : Bool
deriving DecidableEq, Repr

/-- Shallow embedding of the function named underscore execute in cli.py
(lines 67 to 109). The check-updates branch runs and returns before any
lock test; clean-lock falls through to the lock test. Under a truthy
lock_created flag, the update branch evaluates the attribute accesses
args.current_version and then args.stable, neither of which the update
subparser defines, so it raises; the restore branch calls the restore
action, whose recreate step issues one installer create call and writes
no sentinel; an exception skips the final unlock call. -/
def execute (args : Args) (lock_created : Bool) : ExecEffects :=
  if args.command == "check-updates" then
    { output := ["<check-updates json>"], checkUpdatesRan := true, restoreRan := false
      installerCreateInstallCalls := 0, sentinelWrites := 0
      unlockCalled := false, raised := false }
  else if lock_created then
    if args.command == "update" then
      match args.current_version, args.stable with
      | some _, some _ =>
        { output := ["RUNNING", "<check-updates json>"], checkUpdatesRan := true
          restoreRan := false, installerCreateInstallCalls := 0, sentinelWrites := 0
          unlockCalled := true, raised := false }
      | _, _ =>
        { output := ["RUNNING"], checkUpdatesRan := false, restoreRan := false
          installerCreateInstallCalls := 0, sentinelWrites := 0
          unlockCalled := false, raised := true }
    else if args.command == "restore" then
      { output := ["RUNNING"], checkUpdatesRan := false, restoreRan := true
        installerCreateInstallCalls := 1, sentinelWrites := 0
        unlockCalled := true, raised := false }
    else
      { output := ["RUNNING"], checkUpdatesRan := false, restoreRan := false
        installerCreateInstallCalls := 0, sentinelWrites := 0
        unlockCalled := true, raised := false }
  else
    { output := ["ALREADY RUNNING!"], checkUpdatesRan := false, restoreRan := false
      installerCreateInstallCalls := 0, sentinelWrites := 0
      unlockCalled := false, raised := false }

/-- Observable outcome of one CLI invocation through main. -/
structure CliRun where
  lockAttempts : Nat
  staleClearAttempted : Bool
  lockAfter : LockState
  effects : ExecEffects
deriving DecidableEq, Repr

/-- Shallow embedding of main from cli.py (lines 133 to 196). Exactly one
lock call is ever issued. On an acquired lock the dispatcher runs with a
truthy lock_created and the artifact is released only when the unlock
call at the end of the locked block is reached. When another process
holds the lock the dispatcher runs with a falsy flag and the artifact is
untouched. When the lock call raises, main attempts once to delete the
stale artifact, swallowing any error (clearSucceeds says whether the
deletion worked), and re-dispatches with no lock flag; it never retries
the lock call. -/
def cliMain (b : LockBehavior) (clearSucceeds : Bool) (args : Args) : CliRun :=
  match b with
  | .acquired =>
    let e := execute args true
    { lockAttempts := 1, staleClearAttempted := false
      lockAfter := if e.unlockCalled then .free else .held
      effects := e }
  | .heldByOther =>
    let e := execute args false
    { lockAttempts := 1, staleClearAttempted := false
      lockAfter := .held
      effects := e }
  | .corruptArtifact =>
    let e := execute args false
    { lockAttempts := 1, staleClearAttempted := true
      lockAfter := if clearSucceeds then .free else .corrupted
      effects := e }

/-! ## Concrete installer behaviours used as inputs of the
counterexamples and witnesses -/

/-- Backend behaviour where the atomic batched create (two or more specs)
fails, the single-spec create succeeds, and the install of plugin p1
fails. -/
def plugFailBehavior : InstallerBehavior :=
  { createExit := fun specs _ => if specs.length > 1 then 1 else 0
    installExit := fun specs _ => if specs = ["p1"] then 1 else 0
    removeJobId := fun _ => 1
    removeExit := fun _ => 0
    removeDeletesDir := fun _ => false
    createMakesDir := true }

/-- Backend behaviour where removal yields a truthy job id but leaves the
directory in place, and every create fails with exit code one. -/
def recreateFailBehavior : InstallerBehavior :=
  { createExit := fun _ _ => 1
    installExit := fun _ _ => 0
    removeJobId := fun _ => 1
    removeExit := fun _ => 0
    removeDeletesDir := fun _ => false
    createMakesDir := false }

/-- Backend behaviour where removal succeeds, with exit code zero and a
truthy job id. -/
def removeSucceedsBehavior : InstallerBehavior :=
  { createExit := fun _ _ => 0
    installExit := fun _ _ => 0
    removeJobId := fun _ => 1
    removeExit := fun _ => 0
    removeDeletesDir := fun _ => true
    createMakesDir := true }

/-- Stated from the spec words of the update state machine (section 4.5,
transitions 5 to 7): the final relevant exit code of one update run is
the exit code of the atomic batched create or, when that is non-zero, the
exit code of the sequential fallback create of the pinned package. -/
def specFinalRelevantExitCode (B : InstallerBehavior)
    (package_name latest_version build_string : String)
    (filtered_packages : List String) : Int :=
  let spec := condaSpecString package_name latest_version build_string
  let envDir := pathForEnv (package_name ++ "-" ++ latest_version)
  let e1 := B.createExit ([spec] ++ filtered_packages) envDir
  if e1 = 0 then e1 else B.createExit [spec] envDir

/-! ## Helper lemmas -/

/-- Indexing a list one past a cons at the length of the tail reads the
last element of the tail, with the head as effective default. -/
theorem getD_cons_length (l : List String) :
    ∀ a d : String, (a :: l).getD l.length d = l.getLastD a := by
  induction l with
  | nil => intro a d; rfl
  | cons b t ih =>
    intro a d
    have h1 : (a :: b :: t).getD (b :: t).length d = (b :: t).getD t.length d := by
      simp [List.getD_cons_succ]
    rw [h1, ih b d, List.getLastD_cons]

/-- Python index minus one on a nonempty list reads the last element. -/
theorem pyIndex_neg_one_cons (a : String) (l : List String) :
    pyIndex (a :: l) (-1) = (a :: l).getLastD "" := by
  have h0 : ((-1 : Int) < 0) := by decide
  have h : (((a :: l).length : Int) + (-1)).toNat = l.length := by
    simp [List.length_cons]
  simp only [pyIndex, if_pos h0, h]
  rw [getD_cons_length l a "", List.getLastD_cons]

/-- The source expression for the latest version equals the last element
of the list, with the empty string for an empty list. -/
theorem latestExpr_eq_getLastD (l : List String) :
    (if l.isEmpty then "" else pyIndex l (-1)) = l.getLastD "" := by
  cases l with
  | nil => rfl
  | cons a t => simp [pyIndex_neg_one_cons]

/-- Nothing is version-greater than the parse of the empty string. -/
theorem versionLt_none_right (x : Option VersionCore) : versionLt x none = false := by
  cases x <;> rfl

/-- The modelled sort matches the sort test of the in-repository test
file utils/tests/test_versions.py. -/
theorem sort_versions_matches_src_test :
    sort_versions ["0.4.1", "0.4.1dev1", "0.1.1", "0.4.1dev0", "0.4.1a1"] =
      ["0.1.1", "0.4.1dev0", "0.4.1dev1", "0.4.1a1", "0.4.1"] := by
  decide

/-- The modelled stability predicate matches the string cases of the
stability test of the in-repository test file
utils/tests/test_versions.py. -/
theorem is_stable_version_matches_src_test :
    is_stable_version "0.4" = true ∧
    is_stable_version "0.4.15" = true ∧
    is_stable_version "0.4.15rc1" = false ∧
    is_stable_version "0.4.15dev0" = false ∧
    is_stable_version "0.4.15beta" = false ∧
    is_stable_version "0.4.15alfa" = false := by
  decide

/-! ## Claim theorems -/

/-- Claim C6: check_updates returns latest_version equal to the last
element of the filtered, sorted available list (empty string if that list
is empty), returns update equal to the comparison parse latest greater
than parse current, and an empty latest always yields update false. -/
theorem check_updates_latest_and_update_flag
    (pn cur : String) (dev : Bool) (remote : List String)
    (inst : List (String × String)) :
    (check_updates pn cur dev remote inst).latest_version =
      (if dev then sort_versions remote
       else (sort_versions remote).filter is_stable_version).getLastD "" ∧
    (check_updates pn cur dev remote inst).update =
      versionLt (parse_version cur)
        (parse_version (check_updates pn cur dev remote inst).latest_version) ∧
    ((check_updates pn cur dev remote inst).latest_version = "" →
      (check_updates pn cur dev remote inst).update = false) := by
  refine ⟨?_, ?_, ?_⟩
  · simp only [check_updates, latestExpr_eq_getLastD]
  · simp only [check_updates]
  · intro h
    simp only [check_updates] at h ⊢
    rw [h]
    rw [show parse_version "" = none from rfl, versionLt_none_right]

/-- Witness for claim C6 at a concrete input with an empty catalog: the
latest version is empty and the update flag is false. -/
theorem check_updates_latest_and_update_flag_witness :
    (check_updates "app" "1.0" false [] []).latest_version = "" ∧
    (check_updates "app" "1.0" false [] []).update = false :=
  ⟨by decide, (check_updates_latest_and_update_flag "app" "1.0" false [] []).2.2 (by decide)⟩

/-- Claim C5, evaluation at the failing input: with catalog versions
0.4.1 and 0.1.1 and current version 0.1.1, the current version is the
first element of the filtered sorted list, so the claim requires an empty
previous_version, but the source reads the element at Python index minus
one, which wraps around to the last element 0.4.1. -/
theorem check_updates_previous_wraps_to_last :
    (check_updates "pkg" "0.1.1" false ["0.4.1", "0.1.1"] []).available_versions =
      ["0.1.1", "0.4.1"] ∧
    (check_updates "pkg" "0.1.1" false ["0.4.1", "0.1.1"] []).previous_version = "0.4.1" := by
  decide

/-- Claim C7, evaluation at the failing input: under a backend whose
remove job reports exit code zero with the truthy job id one, remove
still deletes the directory tree, because the source tests the job
handle, not the exit code. -/
theorem remove_rmtree_despite_backend_success :
    (remove removeSucceedsBehavior "app" "1.0").backendExit = 0 ∧
    (remove removeSucceedsBehavior "app" "1.0").removeJobId = 1 ∧
    (remove removeSucceedsBehavior "app" "1.0").rmtreeRan = true := by
  decide

/-- Shape of the sentinel decision of update, over abstract exit codes
of the two create calls. -/
theorem update_sentinel_shape (x y : Int) (pn L : String) (ca cb : List InstallerCall) :
    ((if intTruthy x then
        ({ latestVersion := L
           sentinelWritten := if intTruthy y then none else some (pn, L)
           finalReturnCode := y, calls := ca, pyReturn := none } : UpdateRun)
      else
        { latestVersion := L
          sentinelWritten := if intTruthy x then none else some (pn, L)
          finalReturnCode := x, calls := cb, pyReturn := none }).sentinelWritten) =
      (if (if x = 0 then x else y) = 0 then some (pn, L) else none) := by
  rcases eq_or_ne x 0 with h1 | h1 <;> rcases eq_or_ne y 0 with h2 | h2 <;>
    simp [intTruthy, h1, h2]

/-- Claim C1: in every run of update, a sentinel for the pair of
package name and latest version is written if and only if the final
relevant exit code is zero, where the final relevant exit code is the
one of the atomic batched create or, when that is non-zero, the one of
the sequential fallback create of the pinned package; on a non-zero
final exit code no sentinel is written. -/
theorem update_sentinel_iff_final_exit_zero
    (B : InstallerBehavior) (pn cur bs : String) (dev : Bool)
    (remote : List String) (inst : List (String × String))
    (avail listed : List String) :
    (update B pn cur bs dev remote inst avail listed).sentinelWritten =
      (if specFinalRelevantExitCode B pn
            (check_updates pn cur dev remote inst).latest_version bs
            (listed.filter (fun n => avail.contains n)) = 0
       then some (pn, (check_updates pn cur dev remote inst).latest_version)
       else none) := by
  simp only [update, create_with_plugins, create_with_plugins_one_by_one,
    specFinalRelevantExitCode]
  exact update_sentinel_shape _ _ _ _ _ _

/-- A branch on a truthy integer picks the first alternative. -/
theorem update_run_of_truthy (x : Int) (r1 r2 : UpdateRun) (h : x ≠ 0) :
    (if intTruthy x then r1 else r2) = r1 := by
  simp [intTruthy, h]

/-- The sentinel expression of the source, written with the exit code
compared against zero. -/
theorem ite_truthy_none_some (y : Int) (p : String × String) :
    (if intTruthy y then (none : Option (String × String)) else some p) =
      (if y = 0 then some p else none) := by
  rcases eq_or_ne y 0 with h | h <;> simp [intTruthy, h]

/-- Claim C2 counterexample for the reporting part: a concrete run in
which the atomic create fails, the fallback pinned create succeeds and
the install of plugin p1 fails with exit code one; the sentinel is still
written, but the run returns None, so no failing plugin is reported in
any result value. -/
theorem update_reports_no_failing_plugin :
    (update plugFailBehavior "app" "0.9" "" false ["1.0"] [] ["p1"] ["p1"]).pyReturn = none ∧
    (update plugFailBehavior "app" "0.9" "" false ["1.0"] [] ["p1"] ["p1"]).sentinelWritten =
      some ("app", "1.0") ∧
    plugFailBehavior.installExit ["p1"] (pathForEnv "app-1.0") = 1 ∧
    (update plugFailBehavior "app" "0.9" "" false ["1.0"] [] ["p1"] ["p1"]).calls =
      [InstallerCall.create ["app=1.0=**", "p1"] "envs/app-1.0",
       InstallerCall.create ["app=1.0=**"] "envs/app-1.0",
       InstallerCall.install ["p1"] "envs/app-1.0"] := by
  decide

/-- Claim C2 as amended: when the atomic batched create returns a
non-zero exit code, the sequential fallback runs one create call with
only the pinned spec and then one install call per plugin in the filtered
list, attempting every plugin regardless of install exit codes, and the
sentinel is gated by the exit code of the pinned create alone; the update
function itself returns None, so the failing plugin is not reported in
the result. -/
theorem update_fallback_sequential
    (B : InstallerBehavior) (pn cur bs : String) (dev : Bool)
    (remote : List String) (inst : List (String × String))
    (avail listed : List String)
    (h : B.createExit
        ([condaSpecString pn (check_updates pn cur dev remote inst).latest_version bs] ++
          listed.filter (fun n => avail.contains n))
        (pathForEnv (pn ++ "-" ++ (check_updates pn cur dev remote inst).latest_version)) ≠ 0) :
    (update B pn cur bs dev remote inst avail listed).calls =
      InstallerCall.create
        ([condaSpecString pn (check_updates pn cur dev remote inst).latest_version bs] ++
          listed.filter (fun n => avail.contains n))
        (pathForEnv (pn ++ "-" ++ (check_updates pn cur dev remote inst).latest_version)) ::
      InstallerCall.create
        [condaSpecString pn (check_updates pn cur dev remote inst).latest_version bs]
        (pathForEnv (pn ++ "-" ++ (check_updates pn cur dev remote inst).latest_version)) ::
      (listed.filter (fun n => avail.contains n)).map
        (fun p => InstallerCall.install [p]
          (pathForEnv (pn ++ "-" ++ (check_updates pn cur dev remote inst).latest_version))) ∧
    (update B pn cur bs dev remote inst avail listed).sentinelWritten =
      (if B.createExit
            [condaSpecString pn (check_updates pn cur dev remote inst).latest_version bs]
            (pathForEnv (pn ++ "-" ++ (check_updates pn cur dev remote inst).latest_version)) = 0
       then some (pn, (check_updates pn cur dev remote inst).latest_version)
       else none) ∧
    (update B pn cur bs dev remote inst avail listed).pyReturn = none := by
  simp only [update, create_with_plugins, create_with_plugins_one_by_one]
  rw [update_run_of_truthy _ _ _ h]
  exact ⟨rfl, ite_truthy_none_some _ _, rfl⟩

/-- Witness for claim C2 as amended, at a concrete input where the
atomic create fails: the recorded calls are the pinned create followed by
one install per plugin, the sentinel is written because the pinned create
succeeded, and the run returns None. -/
theorem update_fallback_sequential_witness :
    (update plugFailBehavior "app" "0.9" "x" false ["1.0"] [] ["p1"] ["p1"]).calls =
      [InstallerCall.create ["app=1.0=*x*", "p1"] "envs/app-1.0",
       InstallerCall.create ["app=1.0=*x*"] "envs/app-1.0",
       InstallerCall.install ["p1"] "envs/app-1.0"] ∧
    (update plugFailBehavior "app" "0.9" "x" false ["1.0"] [] ["p1"] ["p1"]).sentinelWritten =
      some ("app", "1.0") ∧
    (update plugFailBehavior "app" "0.9" "x" false ["1.0"] [] ["p1"] ["p1"]).pyReturn = none :=
  update_fallback_sequential plugFailBehavior "app" "0.9" "x" false ["1.0"] [] ["p1"] ["p1"]
    (by decide)

/-- Claim C3 counterexample: a concrete run of restore in which the
existing environment is quarantined under the broken suffix and the
recreate step fails with exit code one, yet the quarantined copy is gone
from disk afterward, because the source deletes the broken directory
without consulting the recreate exit code. -/
theorem restore_removes_quarantine_after_failed_recreate :
    (restore recreateFailBehavior "app=1.0" "app" "1.0" ["envs/app-1.0"]).quarantined = true ∧
    (restore recreateFailBehavior "app=1.0" "app" "1.0" ["envs/app-1.0"]).exitCode = 1 ∧
    (restore recreateFailBehavior "app=1.0" "app" "1.0" ["envs/app-1.0"]).brokenDir =
      some "envs/app-1.0-broken" ∧
    (restore recreateFailBehavior "app=1.0" "app" "1.0" ["envs/app-1.0"]).rmtreeBrokenRan = true ∧
    (restore recreateFailBehavior "app=1.0" "app" "1.0" ["envs/app-1.0"]).dirsAfter = [] := by
  decide

/-- Core fact behind the amended claim C3: in restoreCore, whenever the
quarantine rename ran, the broken-copy deletion also runs. -/
theorem restoreCore_quarantine_deleted (jt : Bool) (dirs1 : List String)
    (envDir : String) (ce : Int) (cm : Bool)
    (h : (restoreCore jt dirs1 envDir ce cm).quarantined = true) :
    (restoreCore jt dirs1 envDir ce cm).rmtreeBrokenRan = true := by
  simp only [restoreCore] at h ⊢
  rw [Bool.and_eq_true] at h
  obtain ⟨h1, h2⟩ := h
  simp only [h1, h2, Bool.true_and, if_true, List.contains_cons]
  cases cm <;> simp [List.contains, List.elem]
  split <;> simp

/-- Claim C3 as amended: whenever the quarantine rename step of restore
ran, the broken copy is deleted again before restore returns, regardless
of the exit code of the recreate step; the deletion is gated only on the
remove job handle and the existence of the broken directory, both of
which hold after a quarantine. -/
theorem restore_quarantine_always_deleted
    (B : InstallerBehavior) (pkg pn cur : String) (dirs0 : List String)
    (h : (restore B pkg pn cur dirs0).quarantined = true) :
    (restore B pkg pn cur dirs0).rmtreeBrokenRan = true := by
  simp only [restore] at h ⊢
  exact restoreCore_quarantine_deleted _ _ _ _ _ h

/-- Witness for claim C3 as amended, at a concrete input where the
quarantine step ran. -/
theorem restore_quarantine_always_deleted_witness :
    (restore recreateFailBehavior "pkg=2.0" "pkg" "2.0" ["envs/pkg-2.0"]).rmtreeBrokenRan = true :=
  restore_quarantine_always_deleted recreateFailBehavior "pkg=2.0" "pkg" "2.0" ["envs/pkg-2.0"]
    (by decide)

/-- Claim C4: in every run of check_updates_clean_and_launch, the
sentinel of the version equal to the latest version is never removed;
every removed sentinel belongs to this package, names a found installed
version different from the latest version, and removals happen only when
the latest version is confirmed installed. -/
theorem clean_launch_preserves_latest_sentinel
    (pn : String) (dev : Bool) (remote : List String)
    (inst : List (String × String)) :
    (pn, (check_updates pn "" dev remote inst).latest_version) ∉
      (check_updates_clean_and_launch pn dev remote inst).removedSentinels ∧
    (∀ k ∈ (check_updates_clean_and_launch pn dev remote inst).removedSentinels,
      k.1 = pn ∧
      k.2 ∈ (check_updates pn "" dev remote inst).found_versions ∧
      k.2 ≠ (check_updates pn "" dev remote inst).latest_version ∧
      (check_updates pn "" dev remote inst).installed = true) := by
  constructor
  · simp only [check_updates_clean_and_launch]
    split
    · intro hmem
      simp only [List.mem_map, List.mem_filter] at hmem
      obtain ⟨v, ⟨hv, hne⟩, hpair⟩ := hmem
      have hv2 : v = (check_updates pn "" dev remote inst).latest_version :=
        congrArg Prod.snd hpair
      rw [hv2] at hne
      simp at hne
    · simp
  · intro k hk
    simp only [check_updates_clean_and_launch] at hk
    revert hk
    split
    case isTrue hins =>
      intro hk
      simp only [List.mem_map, List.mem_filter] at hk
      obtain ⟨v, ⟨hv, hne⟩, hpair⟩ := hk
      subst hpair
      refine ⟨rfl, hv, ?_, hins⟩
      simpa using hne
    case isFalse hins =>
      intro hk
      simp at hk

/-- Witness for claim C4 at a concrete input where the latest version
2.0 is installed alongside 1.0: the sentinel of 2.0 is not removed and
every removed sentinel names an older installed version. -/
theorem clean_launch_preserves_latest_sentinel_witness :
    ("app", (check_updates "app" "" false ["1.0", "2.0"]
        [("1.0", "0"), ("2.0", "0")]).latest_version) ∉
      (check_updates_clean_and_launch "app" false ["1.0", "2.0"]
        [("1.0", "0"), ("2.0", "0")]).removedSentinels ∧
    (∀ k ∈ (check_updates_clean_and_launch "app" false ["1.0", "2.0"]
        [("1.0", "0"), ("2.0", "0")]).removedSentinels,
      k.1 = "app" ∧
      k.2 ∈ (check_updates "app" "" false ["1.0", "2.0"]
        [("1.0", "0"), ("2.0", "0")]).found_versions ∧
      k.2 ≠ (check_updates "app" "" false ["1.0", "2.0"]
        [("1.0", "0"), ("2.0", "0")]).latest_version ∧
      (check_updates "app" "" false ["1.0", "2.0"]
        [("1.0", "0"), ("2.0", "0")]).installed = true) :=
  clean_launch_preserves_latest_sentinel "app" false ["1.0", "2.0"]
    [("1.0", "0"), ("2.0", "0")]

/-- Claim C8 counterexample: a check-updates invocation against a free
lock changes the lock artifact state, because main acquires the lock for
every command and the check-updates branch returns without unlocking:
before the invocation the artifact is free, afterwards it is held. -/
theorem cli_check_updates_acquires_and_keeps_lock :
    lockStateBefore LockBehavior.acquired = LockState.free ∧
    (cliMain LockBehavior.acquired true
      (parsedCheckUpdatesArgs "app" "conda-forge" false)).lockAfter = LockState.held ∧
    (cliMain LockBehavior.acquired true
      (parsedCheckUpdatesArgs "app" "conda-forge" false)).effects.checkUpdatesRan = true := by
  decide

/-- Claim C8 as amended: the check-updates result is produced regardless
of the lock state, including when another process holds the lock or the
artifact is corrupted, and in the held case the artifact is unchanged;
but every invocation, check-updates included, issues one lock call, and
when the lock was free the invocation acquires it and returns without
calling unlock, leaving the artifact held. -/
theorem cli_check_updates_runs_regardless_of_lock
    (b : LockBehavior) (clr : Bool) (pkg ch : String) (dv : Bool) :
    (cliMain b clr (parsedCheckUpdatesArgs pkg ch dv)).effects.checkUpdatesRan = true ∧
    (cliMain b clr (parsedCheckUpdatesArgs pkg ch dv)).effects.output =
      ["<check-updates json>"] ∧
    (cliMain b clr (parsedCheckUpdatesArgs pkg ch dv)).effects.unlockCalled = false ∧
    (cliMain b clr (parsedCheckUpdatesArgs pkg ch dv)).lockAttempts = 1 ∧
    (b = LockBehavior.heldByOther →
      (cliMain b clr (parsedCheckUpdatesArgs pkg ch dv)).lockAfter = lockStateBefore b) ∧
    (b = LockBehavior.acquired →
      (cliMain b clr (parsedCheckUpdatesArgs pkg ch dv)).lockAfter = LockState.held) := by
  cases b <;> simp [cliMain, execute, parsedCheckUpdatesArgs, lockStateBefore]

/-- Witness for claim C8 as amended, at a concrete invocation while
another process holds the lock: the result is still produced and the
artifact state is unchanged. -/
theorem cli_check_updates_runs_regardless_of_lock_witness :
    (cliMain LockBehavior.heldByOther true
      (parsedCheckUpdatesArgs "pkg" "c" false)).effects.checkUpdatesRan = true ∧
    (cliMain LockBehavior.heldByOther true
      (parsedCheckUpdatesArgs "pkg" "c" false)).lockAfter =
      lockStateBefore LockBehavior.heldByOther :=
  ⟨(cli_check_updates_runs_regardless_of_lock LockBehavior.heldByOther true "pkg" "c" false).1,
   (cli_check_updates_runs_regardless_of_lock LockBehavior.heldByOther true
      "pkg" "c" false).2.2.2.2.1 rfl⟩

/-- Claim C9 counterexample: when the lock call raises on a corrupted
artifact, a restore invocation issues no second lock call and the restore
operation does not proceed in an unlocked mode; it is skipped with the
already-running message. -/
theorem cli_corrupt_lock_no_retry_skips_restore :
    (cliMain LockBehavior.corruptArtifact true
      (parsedRestoreArgs "app" "conda-forge")).lockAttempts = 1 ∧
    (cliMain LockBehavior.corruptArtifact true
      (parsedRestoreArgs "app" "conda-forge")).effects.restoreRan = false ∧
    (cliMain LockBehavior.corruptArtifact true
      (parsedRestoreArgs "app" "conda-forge")).effects.output = ["ALREADY RUNNING!"] := by
  decide

/-- Claim C9 as amended: when the lock call raises, main attempts once
to delete the stale artifact, swallowing errors, and never retries the
lock call; it then dispatches with no lock flag, so every subcommand
other than check-updates is skipped with the already-running message and
performs no mutation, instead of proceeding unlocked. -/
theorem cli_corrupt_lock_clears_once_and_skips
    (clr : Bool) (args : Args) (h : args.command ≠ "check-updates") :
    (cliMain LockBehavior.corruptArtifact clr args).lockAttempts = 1 ∧
    (cliMain LockBehavior.corruptArtifact clr args).staleClearAttempted = true ∧
    (cliMain LockBehavior.corruptArtifact clr args).effects.output = ["ALREADY RUNNING!"] ∧
    (cliMain LockBehavior.corruptArtifact clr args).effects.restoreRan = false ∧
    (cliMain LockBehavior.corruptArtifact clr args).effects.installerCreateInstallCalls = 0 ∧
    (cliMain LockBehavior.corruptArtifact clr args).effects.sentinelWrites = 0 := by
  have hb : (args.command == "check-updates") = false := by
    simp [h]
  simp [cliMain, execute, hb]

/-- Witness for claim C9 as amended, at a concrete clean invocation with
a corrupted lock artifact. -/
theorem cli_corrupt_lock_clears_once_and_skips_witness :
    (cliMain LockBehavior.corruptArtifact false
      (parsedRestoreArgs "pkg" "c")).lockAttempts = 1 ∧
    (cliMain LockBehavior.corruptArtifact false
      (parsedRestoreArgs "pkg" "c")).staleClearAttempted = true ∧
    (cliMain LockBehavior.corruptArtifact false
      (parsedRestoreArgs "pkg" "c")).effects.output = ["ALREADY RUNNING!"] ∧
    (cliMain LockBehavior.corruptArtifact false
      (parsedRestoreArgs "pkg" "c")).effects.restoreRan = false ∧
    (cliMain LockBehavior.corruptArtifact false
      (parsedRestoreArgs "pkg" "c")).effects.installerCreateInstallCalls = 0 ∧
    (cliMain LockBehavior.corruptArtifact false
      (parsedRestoreArgs "pkg" "c")).effects.sentinelWrites = 0 :=
  cli_corrupt_lock_clears_once_and_skips false (parsedRestoreArgs "pkg" "c") (by decide)

/-- Claim C10: for every invocation of the CLI update subcommand, under
any lock behaviour, no installer create or install call is issued and no
sentinel is written; the update subparser defines neither the stable nor
the current_version argument, and when the lock is acquired the update
branch raises at those attribute accesses before completing, without even
reaching the read-only check_updates resolution. -/
theorem cli_update_command_never_installs
    (b : LockBehavior) (clr : Bool) (pkg ch : String) (pl : List String) (dv : Bool) :
    (cliMain b clr (parsedUpdateArgs pkg ch pl dv)).effects.installerCreateInstallCalls = 0 ∧
    (cliMain b clr (parsedUpdateArgs pkg ch pl dv)).effects.sentinelWrites = 0 ∧
    (cliMain b clr (parsedUpdateArgs pkg ch pl dv)).effects.restoreRan = false ∧
    (parsedUpdateArgs pkg ch pl dv).stable = none ∧
    (parsedUpdateArgs pkg ch pl dv).current_version = none ∧
    (b = LockBehavior.acquired →
      (cliMain b clr (parsedUpdateArgs pkg ch pl dv)).effects.raised = true ∧
      (cliMain b clr (parsedUpdateArgs pkg ch pl dv)).effects.checkUpdatesRan = false) := by
  cases b <;> simp [cliMain, execute, parsedUpdateArgs]

/-- Witness for claim C10 at a concrete update invocation with an
acquired lock: nothing is installed, no sentinel is written, and the
branch raises. -/
theorem cli_update_command_never_installs_witness :
    (cliMain LockBehavior.acquired true
      (parsedUpdateArgs "app" "conda-forge" ["p1"] false)).effects.installerCreateInstallCalls
      = 0 ∧
    (cliMain LockBehavior.acquired true
      (parsedUpdateArgs "app" "conda-forge" ["p1"] false)).effects.sentinelWrites = 0 ∧
    (cliMain LockBehavior.acquired true
      (parsedUpdateArgs "app" "conda-forge" ["p1"] false)).effects.raised = true :=
  ⟨(cli_update_command_never_installs LockBehavior.acquired true "app" "conda-forge"
      ["p1"] false).1,
   (cli_update_command_never_installs LockBehavior.acquired true "app" "conda-forge"
      ["p1"] false).2.1,
   ((cli_update_command_never_installs LockBehavior.acquired true "app" "conda-forge"
      ["p1"] false).2.2.2.2.2 rfl).1⟩

end ConstructorManager
